import Mathlib

/-!
Verification development for the codegen repository.

This file shallowly embeds the structural parser of
`src/include/fr/codegen/parser.h` (a boost::spirit::x3 grammar driven by
`ParserDriver::parse`), the data-accumulation drivers of
`src/include/fr/codegen/drivers.h`, the line-filter classes of
`src/include/fr/codegen/LblEmitFunctions.h`, and the key construction of
`src/include/fr/codegen/data.h`.

Conventions of the embedding:

* Input is a `List Char`.  The x3 phrase skipper (whitespace, `// ... eol`
  line comments requiring an end of line, and `/- ... -/`-style
  `/* ... */` block comments requiring a closer) is applied before every
  primitive token parser, exactly as `x3::phrase_parse` does; `lexeme`
  rules (`templateGuts`, `ignoreScopes`, identifiers internally) do not
  skip between their characters.
* A parser is a function `Nat → PSt → List Char → Option (List Char) × PSt`:
  fuel, mutable parser state (signal log plus the `ParserDriver` fields),
  input; it returns the remaining input on success.  Crucially, state is
  threaded through *failures* as well: in x3, semantic actions that ran
  inside a partially matched alternative are not rolled back when the
  alternative fails; only the input position backtracks.
* Signals (`boost::signals2`) are modelled by an event log: firing a
  signal appends an `Ev` to `PSt.events`.  Drivers are folds over the
  event list, mirroring their connected lambdas.
* The top-level `programGrammar` is a Kleene star of ordered
  alternatives; in x3 a Kleene star never fails, so
  `x3::phrase_parse` returns `true` whatever the input: `phraseParse`
  returns that star result together with the unconsumed suffix and the
  final state.
* The fuel arguments only bound loop iterations; every loop consumes at
  least one input character per iteration, so any fuel comfortably above
  (input length × grammar nesting depth) is exact.
-/

/-- Parse events, one constructor per `boost::signals2::signal` member of
`fr::codegen::parser::ParserDriver` (parser.h lines 147-193). -/
inductive Ev where
  | incScope : Ev
  | decScope : Ev
  | namespacePush (name : String) (depth : Int) : Ev
  | enumPush (name : String) (depth : Int) : Ev
  | enumClassPush (name : String) (depth : Int) : Ev
  | enumIdentifier (enumName ident : String) : Ev
  | classPush (name : String) (depth : Int) : Ev
  | classPop : Ev
  | structPush (name : String) (depth : Int) : Ev
  | privateClassParent (name : String) : Ev
  | protectedClassParent (name : String) : Ev
  | publicClassParent (name : String) : Ev
  | privateInClass : Ev
  | protectedInClass : Ev
  | publicInClass : Ev
  | memberFound (isConst isStatic : Bool) (type name : String) : Ev
  | methodFound (isConst isStatic isVirtual : Bool) (type name : String) : Ev
  | annotationFound (text : String) : Ev
deriving DecidableEq, Repr

/-- Parser state: the event log (fired signals, in order) plus the local
variables and fields used by `ParserDriver::parse` (parser.h lines
197-225). -/
structure PSt where
  events : List Ev
  scopeDepth : Int
  currentEnumName : String
  inClassConst : Bool
  inClassStatic : Bool
  inClassVirtual : Bool
  inClassStruct : Bool
  enhId : String
  inId : String
deriving DecidableEq, Repr

/-- Fire a signal: append the event to the log. -/
def emitEv (e : Ev) (st : PSt) : PSt :=
  { st with events := st.events ++ [e] }

/-- `x3::ascii::space` and `::isspace` character class. -/
def isSpaceC (c : Char) : Bool :=
  c == ' ' || c == '\t' || c == '\n' || c == '\r' || c == '\x0b' || c == '\x0c'

/-- Consume `*~char_("\r\n") >> eol` for a `//` comment: everything up to
and including the line end; `x3::eol` accepts CRLF, LF or CR, and the
comment fails (is not skipped) when the input ends without one
(parser.h lines 33-34). -/
def dropEol : List Char → Option (List Char)
  | [] => none
  | '\r' :: '\n' :: t => some t
  | '\r' :: t => some t
  | '\n' :: t => some t
  | _ :: t => dropEol t

/-- Consume the rest of a `/* ... */` block comment including the closer;
fails when the comment is unterminated (parser.h line 37). -/
def dropBlock : List Char → Option (List Char)
  | [] => none
  | '*' :: '/' :: t => some t
  | _ :: t => dropBlock t

/-- The phrase skipper `blockComment | singleLineComment | x3::ascii::space`
(parser.h lines 473-476), iterated to exhaustion. -/
def skip : Nat → List Char → List Char
  | 0, inp => inp
  | Nat.succ f, inp =>
    match inp with
    | [] => []
    | c :: t =>
      if isSpaceC c then skip f t
      else if c == '/' then
        match t with
        | '/' :: r =>
          match dropEol r with
          | some r2 => skip f r2
          | none => c :: t
        | '*' :: r =>
          match dropBlock r with
          | some r2 => skip f r2
          | none => c :: t
        | _ => c :: t
      else c :: t

/-- The type of an embedded x3 phrase-level parser: fuel, state, input to
optional remaining input and the (always returned, possibly mutated)
state. -/
abbrev P := Nat → PSt → List Char → Option (List Char) × PSt

/-- Sequence `p >> q`. -/
def pseq (p q : P) : P := fun f st inp =>
  match p f st inp with
  | (some rest, st1) => q f st1 rest
  | (none, st1) => (none, st1)

/-- Ordered alternative `p | q`: input backtracks on failure of `p`, but
state changes made by actions inside `p` persist (x3 semantics). -/
def palt (p q : P) : P := fun f st inp =>
  match p f st inp with
  | (some rest, st1) => (some rest, st1)
  | (none, st1) => q f st1 inp

/-- Optional `-p`. -/
def popt (p : P) : P := fun f st inp =>
  match p f st inp with
  | (some rest, st1) => (some rest, st1)
  | (none, st1) => (some inp, st1)

/-- Kleene star `*p`: iterate until failure; never fails itself. -/
def pstarGo (p : P) : Nat → PSt → List Char → Option (List Char) × PSt
  | 0, st, inp => (some inp, st)
  | Nat.succ f, st, inp =>
    match p f st inp with
    | (none, st1) => (some inp, st1)
    | (some rest, st1) => pstarGo p f st1 rest

/-- Kleene star as a parser. -/
def pstar (p : P) : P := fun f st inp => pstarGo p f st inp

/-- One-or-more `+p`. -/
def pplus (p : P) : P := pseq p (pstar p)

/-- `x3::lit(s)` at phrase level: skip, then match the literal characters. -/
def plit (s : String) : P := fun f st inp =>
  let i := skip f inp
  if s.data.isPrefixOf i then (some (i.drop s.data.length), st) else (none, st)

/-- A literal with a semantic action fired on success. -/
def plitAct (s : String) (act : PSt → PSt) : P := fun f st inp =>
  match plit s f st inp with
  | (some rest, st1) => (some rest, act st1)
  | (none, st1) => (none, st1)

/-- Negative lookahead `!lit(s)`: consumes nothing. -/
def pnotLit (s : String) : P := fun f st inp =>
  if s.data.isPrefixOf (skip f inp) then (none, st) else (some inp, st)

/-- `x3::char_(pred)` at phrase level: skip, then one character. -/
def pch (pred : Char → Bool) : P := fun f st inp =>
  match skip f inp with
  | c :: t => if pred c then (some t, st) else (none, st)
  | [] => (none, st)

/-- A single character with an action on success. -/
def pchAct (pred : Char → Bool) (act : PSt → PSt) : P := fun f st inp =>
  match pch pred f st inp with
  | (some rest, st1) => (some rest, act st1)
  | (none, st1) => (none, st1)

/-- `x3::char_ - lit(s)`: any character at a position where the literal
does not match. -/
def pchNotLit (s : String) : P := fun f st inp =>
  match skip f inp with
  | c :: t => if s.data.isPrefixOf (c :: t) then (none, st) else (some t, st)
  | [] => (none, st)

/-- Identifier tail characters (parser.h line 123). -/
def identTail (c : Char) : Bool := c.isAlphanum || c == '_'

/-- Enhanced-identifier tail characters (parser.h line 127). -/
def enhTail (c : Char) : Bool :=
  c.isAlphanum || c == '_' || c == '<' || c == '>' || c == ':' || c == '&' || c == '*'

/-- The `identifier` rule with an action receiving the matched text. -/
def pident (act : String → PSt → PSt) : P := fun f st inp =>
  match skip f inp with
  | c :: t =>
    if c.isAlpha || c == '_' then
      (some (t.dropWhile identTail), act (String.mk (c :: t.takeWhile identTail)) st)
    else (none, st)
  | [] => (none, st)

/-- The `identifier` rule used without an action (constructor names,
template class names). -/
def pidentNoAct : P := pident (fun _ st => st)

/-- The `enhancedIdentifier` rule with an action. -/
def penhIdent (act : String → PSt → PSt) : P := fun f st inp =>
  match skip f inp with
  | c :: t =>
    if c.isAlpha || c == '_' then
      (some (t.dropWhile enhTail), act (String.mk (c :: t.takeWhile enhTail)) st)
    else (none, st)
  | [] => (none, st)

/-- Characters admitted inside an annotation body (parser.h line 88);
spaces are consumed by the phrase skipper before each attempt, so the
`x3::space` branch of the rule never collects anything. -/
def annotChar (c : Char) : Bool :=
  c.isAlphanum || c == ',' || c == '_' || c == '(' || c == ')'

/-- Collect the annotation body `*(alnum | space | char_(",_()"))` with
phrase skipping between elements. -/
def pAnnotBody : Nat → List Char → List Char × List Char
  | 0, inp => ([], inp)
  | Nat.succ f, inp =>
    match skip f inp with
    | c :: t =>
      if annotChar c then
        match pAnnotBody f t with
        | (cs, r) => (c :: cs, r)
      else ([], inp)
    | [] => ([], inp)

/-- The `annotation` rule `[[ ... ]]` with an action receiving the
collected inner text (parser.h lines 87-88). -/
def pAnnotRule (act : String → PSt → PSt) : P := fun f st inp =>
  match plit ("[[") f st inp with
  | (some r1, st1) =>
    match pAnnotBody f r1 with
    | (cs, r2) =>
      match plit ("]]") f st1 r2 with
      | (some r3, st2) => (some r3, act (String.mk cs) st2)
      | (none, st2) => (none, st2)
  | (none, st1) => (none, st1)

/-- The lambdas of `ParserDriver::parse` (parser.h lines 229-345),
one definition each, acting on `PSt`. -/
def actNsPush (n : String) (st : PSt) : PSt :=
  emitEv (Ev.namespacePush n st.scopeDepth) st

/-- `handleScopePush` (parser.h lines 239-242): fire `incScope`, increment
the local depth. -/
def actScopePush (st : PSt) : PSt :=
  let st1 := emitEv Ev.incScope st
  { st1 with scopeDepth := st1.scopeDepth + 1 }

/-- `handleScopePop` (parser.h lines 244-248): fire `decScope`, decrement
the depth, clear the current enum name. -/
def actScopePop (st : PSt) : PSt :=
  let st1 := emitEv Ev.decScope st
  { st1 with scopeDepth := st1.scopeDepth - 1, currentEnumName := ("") }

def actEnumPush (n : String) (st : PSt) : PSt :=
  let st1 := emitEv (Ev.enumPush n st.scopeDepth) st
  { st1 with currentEnumName := n }

def actEnumIdent (n : String) (st : PSt) : PSt :=
  emitEv (Ev.enumIdentifier st.currentEnumName n) st

/-- `handleEnumClassPush` (parser.h lines 261-264): fires the signal but,
unlike `handleEnumPush`, does not store the name in `currentEnumName`. -/
def actEnumClassPush (n : String) (st : PSt) : PSt :=
  emitEv (Ev.enumClassPush n st.scopeDepth) st

/-- `handleClassPush` (parser.h lines 266-273): routed to `structPush`
when `inClassStruct` is set. -/
def actClassPush (n : String) (st : PSt) : PSt :=
  if st.inClassStruct then emitEv (Ev.structPush n st.scopeDepth) st
  else emitEv (Ev.classPush n st.scopeDepth) st

def actClassPop (st : PSt) : PSt := emitEv Ev.classPop st

def actPrivParent (n : String) (st : PSt) : PSt := emitEv (Ev.privateClassParent n) st

def actProtParent (n : String) (st : PSt) : PSt := emitEv (Ev.protectedClassParent n) st

def actPubParent (n : String) (st : PSt) : PSt := emitEv (Ev.publicClassParent n) st

def actPubInClass (st : PSt) : PSt := emitEv Ev.publicInClass st

def actProtInClass (st : PSt) : PSt := emitEv Ev.protectedInClass st

def actPrivInClass (st : PSt) : PSt := emitEv Ev.privateInClass st

def actStatic (st : PSt) : PSt := { st with inClassStatic := true }

def actVirtual (st : PSt) : PSt := { st with inClassVirtual := true }

def actConst (st : PSt) : PSt := { st with inClassConst := true }

def actSetEnh (n : String) (st : PSt) : PSt := { st with enhId := n }

def actSetId (n : String) (st : PSt) : PSt := { st with inId := n }

/-- `handleStructKeyword` (parser.h lines 338-340). -/
def actStructKw (st : PSt) : PSt := { st with inClassStruct := true }

def actAnnot (t : String) (st : PSt) : PSt := emitEv (Ev.annotationFound t) st

/-- `resetInClassFlags` (parser.h lines 207-214).  Note: the C++ body
contains the statement `inClassStruct;` — an expression statement with no
effect — so `inClassStruct` is deliberately NOT reset here, mirroring the
source. -/
def resetInClassFlags (st : PSt) : PSt :=
  { st with inClassConst := false, inClassStatic := false, inClassVirtual := false,
            enhId := (""), inId := ("") }

/-- `handleMemberFound` (parser.h lines 328-331). -/
def actMemberFound (st : PSt) : PSt :=
  resetInClassFlags
    (emitEv (Ev.memberFound st.inClassConst st.inClassStatic st.enhId st.inId) st)

/-- `handleMethodFound` (parser.h lines 333-336). -/
def actMethodFound (st : PSt) : PSt :=
  resetInClassFlags
    (emitEv (Ev.methodFound st.inClassConst st.inClassStatic st.inClassVirtual st.enhId st.inId) st)

mutual

/-- `templateGuts` (parser.h lines 107-109), a `lexeme` rule without
semantic actions, embedded as a pure consumer:
`char_("<") >> *(char_ - char_("<>")) >> *templateGuts | char_(">")`. -/
def tGuts : Nat → List Char → Option (List Char)
  | 0, _ => none
  | Nat.succ f, inp =>
    match inp with
    | '<' :: t => some (tGutsStar f (t.dropWhile (fun c => !(c == '<' || c == '>'))))
    | '>' :: t => some t
    | _ => none

/-- `*templateGuts` inside the lexeme. -/
def tGutsStar : Nat → List Char → List Char
  | 0, inp => inp
  | Nat.succ f, inp =>
    match tGuts f inp with
    | some r => tGutsStar f r
    | none => inp

end

mutual

/-- `ignoreScopes` (parser.h lines 112-116), a `lexeme` rule without
actions: `char_('{') >> *((char_ - char_("{}")) >> *ignoreScopes) >> char_("}")`.
Each iteration of the inner star must start with a non-brace character. -/
def iScopes : Nat → List Char → Option (List Char)
  | 0, _ => none
  | Nat.succ f, inp =>
    match inp with
    | '{' :: t =>
      match iBody f t with
      | '}' :: r => some r
      | _ => none
    | _ => none

/-- `*((char_ - char_("{}")) >> *ignoreScopes)` inside the lexeme. -/
def iBody : Nat → List Char → List Char
  | 0, inp => inp
  | Nat.succ f, inp =>
    match inp with
    | [] => []
    | c :: t =>
      if c == '{' || c == '}' then c :: t
      else iBody f (iScopesStar f t)

/-- `*ignoreScopes` inside the lexeme. -/
def iScopesStar : Nat → List Char → List Char
  | 0, inp => inp
  | Nat.succ f, inp =>
    match iScopes f inp with
    | some r => iScopesStar f r
    | none => inp

end

/-- `*(x3::char_ - "};")` of the template-class rule (parser.h line 396):
phrase-level, so the skipper runs before each character; consumes
everything up to the first position where the literal matches. -/
def eatUntilLit (stop : String) : Nat → List Char → List Char
  | 0, inp => inp
  | Nat.succ f, inp =>
    match skip f inp with
    | [] => inp
    | c :: t =>
      if stop.data.isPrefixOf (c :: t) then inp
      else eatUntilLit stop f t

/-- `templateGuts` lifted to a phrase-level stateless parser (a pre-skip,
then the lexeme). -/
def tGutsP : P := fun f st inp =>
  match tGuts f (skip f inp) with
  | some r => (some r, st)
  | none => (none, st)

/-- `ignoreScopes` lifted to a phrase-level stateless parser. -/
def iScopesP : P := fun f st inp =>
  match iScopes f (skip f inp) with
  | some r => (some r, st)
  | none => (none, st)

/-- `x3::lit(s)` as a pure (stateless) phrase-level consumer, for rules
that contain no semantic action. -/
def plitC (s : String) (f : Nat) (inp : List Char) : Option (List Char) :=
  let i := skip f inp
  if s.data.isPrefixOf i then some (i.drop s.data.length) else none

/-- The `identifier` rule as a pure consumer. -/
def pidentC (f : Nat) (inp : List Char) : Option (List Char) :=
  match skip f inp with
  | c :: t => if c.isAlpha || c == '_' then some (t.dropWhile identTail) else none
  | [] => none

/-- `templateClassGrammar` (parser.h lines 386-397) as a pure consumer:
no semantic action appears anywhere in the rule — in particular the
`(classKeyword | structKeyword)` here has no action and the `lit("{")`
does not fire a scope push.  After the opening brace the rule skips to
the FIRST occurrence of the closing-brace-semicolon sequence. -/
def templateClassC (f : Nat) (inp : List Char) : Option (List Char) :=
  match plitC ("template") f inp with
  | none => none
  | some r1 =>
    match tGuts f (skip f r1) with
    | none => none
    | some r2 =>
      match
        (match plitC ("class") f r2 with
         | some r => some r
         | none => plitC ("struct") f r2) with
      | none => none
      | some r3 =>
        match pidentC f r3 with
        | none => none
        | some r4 =>
          match plitC ("\x7b") f r4 with
          | none => none
          | some r5 => plitC ("\x7d;") f (eatUntilLit ("\x7d;") f r5)

/-- `templateClassGrammar` as a parser: being action-free, it can never
change the state. -/
def templateClassP : P := fun f st inp => (templateClassC f inp, st)

/-- `pragmaOnceGrammar` (parser.h lines 348-349). -/
def pragmaOnceP : P := pseq (plit ("#pragma")) (plit ("once"))

/-- `includeGrammar` (parser.h lines 351-355). -/
def includeP : P :=
  pseq (plit ("#include"))
    (pseq (pch (fun c => c == '<' || c == '"'))
      (pseq (pstar (pch (fun c => !(c == '>' || c == '"'))))
        (pch (fun c => c == '>' || c == '"'))))

/-- `ignoreUsing` (parser.h line 419). -/
def usingP : P :=
  pseq (plit ("using")) (pseq (pstar (pch (fun c => !(c == ';')))) (pch (fun c => c == ';')))

/-- `namespaceGrammar` (parser.h lines 358-362). -/
def namespaceGrammarP : P :=
  pseq (plit ("namespace"))
    (pseq (pident actNsPush)
      (pseq (pstar (pseq (plit ("::")) (pident actNsPush)))
        (plitAct ("\x7b") actScopePush)))

/-- The shared enum body `*(identifier >> -(lit("=") >> +alnum) >> -(lit(",")))`
(parser.h lines 370 and 378). -/
def enumBodyP : P :=
  pstar (pseq (pident actEnumIdent)
    (pseq (popt (pseq (pch (fun c => c == '=')) (pplus (pch Char.isAlphanum))))
      (popt (plit (",")))))

/-- `enumGrammar` (parser.h lines 364-371). -/
def enumGrammarP : P :=
  pseq (plit ("enum"))
    (pseq (pnotLit ("class"))
      (pseq (pident actEnumPush)
        (pseq (plitAct ("\x7b") actScopePush)
          (pseq enumBodyP
            (pseq (plitAct ("\x7d") actScopePop) (plit (";")))))))

/-- `enumClassGrammar` (parser.h lines 373-380). -/
def enumClassGrammarP : P :=
  pseq (plit ("enum"))
    (pseq (plit ("class"))
      (pseq (pident actEnumClassPush)
        (pseq (plitAct ("\x7b") actScopePush)
          (pseq enumBodyP
            (pseq (plitAct ("\x7d") actScopePop) (plit (";")))))))

/-- `parameterGrammar` (parser.h line 417). -/
def parameterP : P :=
  pseq (pch (fun c => c == '('))
    (pseq (pstar (pch (fun c => !(c == ')')))) (pch (fun c => c == ')')))

/-- `defaultMethod` (parser.h line 421). -/
def defaultP : P := pseq (pch (fun c => c == '=')) (plit ("default"))

/-- `constructorDestructor` (parser.h lines 423-430). -/
def ctorDtorP : P :=
  pseq (pstar (plit ("virtual")))
    (pseq (popt (pch (fun c => c == '~')))
      (pseq pidentNoAct
        (pseq parameterP
          (pstar (palt iScopesP (palt defaultP (pch (fun c => c == ';'))))))))

/-- The member branch of `methodOrMember` (parser.h lines 433-435):
qualifier keywords, enhanced identifier + identifier, optional
initializers, then an optional semicolon carrying `handleMemberFound`. -/
def memberBranchP : P :=
  pseq (pstar (palt (plitAct ("static") actStatic)
               (palt (plitAct ("const") actConst) (plitAct ("virtual") actVirtual))))
    (pseq (penhIdent actSetEnh)
      (pseq (pident actSetId)
        (pseq (pstar (pseq (pch (fun c => c == '=')) (pstar (pch (fun c => !(c == ';'))))))
          (popt (pchAct (fun c => c == ';') actMemberFound)))))

/-- The method branch of `methodOrMember` (parser.h lines 436-439):
parameter list, trailing `override`/`const`, then an optional
semicolon-or-body alternative carrying `handleMethodFound`. -/
def methodBranchP : P :=
  pseq parameterP
    (pseq (pstar (palt (plitAct ("override") actVirtual) (plitAct ("const") actConst)))
      (popt (fun f st inp =>
        match palt (pch (fun c => c == ';')) iScopesP f st inp with
        | (some rest, st1) => (some rest, actMethodFound st1)
        | (none, st1) => (none, st1))))

/-- `methodOrMember` (parser.h lines 432-439): the member branch is tried
first (operator precedence puts everything before the alternative bar in
the first branch). -/
def methodOrMemberP : P := palt memberBranchP methodBranchP

/-- One alternative of the class body star (parser.h lines 447-457). -/
def classBodyAltP : P :=
  palt (pAnnotRule actAnnot)
    (palt ctorDtorP
      (palt (pseq (plit ("template")) tGutsP)
        (palt (pseq (plitAct ("public") actPubInClass) (plit (":")))
          (palt (pseq (plitAct ("protected") actProtInClass) (plit (":")))
            (palt (pseq (plitAct ("private") actPrivInClass) (plit (":")))
              methodOrMemberP)))))

/-- The parent-clause alternatives (parser.h lines 399-409 and 445):
`+(privateClassParentGrammar | protectedClassParentGrammar |
publicClassParentGrammar >> *lit(","))`, where the private form has an
*optional* `private` keyword and therefore matches any identifier. -/
def parentAltP : P :=
  palt (pseq (popt (plit ("private"))) (penhIdent actPrivParent))
    (palt (pseq (plit ("protected")) (penhIdent actProtParent))
      (pseq (pseq (plit ("public")) (penhIdent actPubParent)) (pstar (plit (",")))))

/-- `classGrammar` (parser.h lines 441-458).  Leading annotations, the
class/struct keyword (struct carries `handleStructKeyword`), the name
(firing class-or-struct push), optional parents, a plain `lit("{")` with
no scope action, the body star, and `lit("};")` firing class pop. -/
def classGrammarP : P :=
  pseq (pstar (pAnnotRule actAnnot))
    (pseq (palt (plit ("class")) (plitAct ("struct") actStructKw))
      (pseq (pident actClassPush)
        (pseq (popt (pseq (plit (":")) (pplus parentAltP)))
          (pseq (plit ("\x7b"))
            (pseq (pstar classBodyAltP)
              (plitAct ("\x7d;") actClassPop))))))

/-- One iteration of `programGrammar` (parser.h lines 461-471): the
ordered top-level alternatives.  Note that the bare `scopePush` and
`scopePop` alternatives carry NO semantic action in the source: a
standalone top-level brace is consumed silently. -/
def progStep : P :=
  palt includeP
    (palt pragmaOnceP
      (palt usingP
        (palt (plit ("\x7b"))
          (palt namespaceGrammarP
            (palt enumGrammarP
              (palt enumClassGrammarP
                (palt templateClassP
                  (palt classGrammarP (plit ("\x7d"))))))))))

/-- The `programGrammar` Kleene star. -/
def progStar : Nat → PSt → List Char → PSt × List Char
  | 0, st, inp => (st, inp)
  | Nat.succ f, st, inp =>
    match progStep f st inp with
    | (none, st1) => (st1, inp)
    | (some rest, st1) => progStar f st1 rest

/-- The parser state at the start of `ParserDriver::parse` (parser.h
lines 220-225): depth zero, `resetInClassFlags` applied.  The C++
`inClassStruct` member is never initialised (the reset statement is a
no-op); we model the zero-initialised start observed in practice. -/
def initPSt : PSt :=
  { events := [], scopeDepth := 0, currentEnumName := (""),
    inClassConst := false, inClassStatic := false, inClassVirtual := false,
    inClassStruct := false, enhId := (""), inId := ("") }

/-- `ParserDriver::parse` (parser.h lines 219-483): run
`x3::phrase_parse` on `programGrammar`.  A Kleene star never fails, so
the Boolean returned to the caller equals the star result, `true`; the
second component is the unconsumed suffix (the final iterator position),
the third the final state with the fired-event log. -/
def phraseParse (f : Nat) (input : String) : Bool × List Char × PSt :=
  match progStar f initPSt input.data with
  | (st, rest) => (true, rest, st)

/-- `MemberData` (data.h lines 172-181). -/
structure MemberD where
  type : String
  name : String
  isPublic : Bool
  isProtected : Bool
  isConst : Bool
  isStatic : Bool
  serializable : Bool
  generateGetter : Bool
  generateSetter : Bool
deriving DecidableEq, Repr

/-- `MethodData` (data.h lines 115-122). -/
structure MethodD where
  returnType : String
  name : String
  isPublic : Bool
  isProtected : Bool
  isVirtual : Bool
  isConst : Bool
  isStatic : Bool
deriving DecidableEq, Repr

/-- `ClassData` (data.h lines 224-233); `definedIn` is omitted because the
`setCurrentFile` setter does not exist in the headers under src/ and no
claim concerns it. -/
structure ClassD where
  namespaces : List String
  name : String
  parents : List String
  methods : List MethodD
  members : List MemberD
  isStruct : Bool
  serializable : Bool
deriving DecidableEq, Repr

/-- `ClassData` after `clear()` (data.h lines 261-269) or default
construction. -/
def emptyClassD : ClassD :=
  { namespaces := [], name := (""), parents := [], methods := [], members := [],
    isStruct := false, serializable := false }

/-- `ClassData::fullClassName` (data.h lines 237-245): append each
namespace followed by a separator, then the name. -/
def fullClassName (c : ClassD) : String :=
  (c.namespaces.foldl (fun acc ns => acc ++ ns ++ ("::")) ("")) ++ c.name

/-- The key built by the `EnumDriver` commit handler on `decScope`
(drivers.h lines 141-147): the same append loop over the captured
namespaces followed by the enum name. -/
def enumAvailableKey (namespaces : List String) (name : String) : String :=
  (namespaces.foldl (fun acc ns => acc ++ ns ++ ("::")) ("")) ++ name

/-- `NamespaceDriver` state (drivers.h lines 29-34).  The C++ stack is a
vector with `push_back`/`back`/`pop_back`; we store it top-first
(`push` is cons), so the C++ begin-to-end iteration order is the reverse
of this list. -/
structure NsD where
  scopeDepth : Int
  stack : List (String × Int)
deriving DecidableEq, Repr

/-- The namespace names in C++ iteration order (bottom of the stack
first). -/
def nsNames (n : NsD) : List String := (n.stack.map Prod.fst).reverse

/-- The `NamespaceDriver` subscriptions (drivers.h lines 58-76): `incScope`
increments, `decScope` decrements and then pops every entry whose stored
depth is ≥ the new depth (`cleanUpNamespaces`, lines 51-55),
`namespacePush` pushes the name with depth+1. -/
def nsStep (n : NsD) (e : Ev) : NsD :=
  match e with
  | Ev.incScope => { n with scopeDepth := n.scopeDepth + 1 }
  | Ev.decScope =>
    let d := n.scopeDepth - 1
    { scopeDepth := d, stack := n.stack.dropWhile (fun p => d ≤ p.2) }
  | Ev.namespacePush name depth => { n with stack := (name, depth + 1) :: n.stack }
  | _ => n

/-- `ClassDriver` state (drivers.h lines 184-229): its own
`NamespaceDriver`, the current class, the tri-state access flags, the
in-class indicator, the three pending annotation-driven flags, and the
log of `classAvailable` emissions. -/
structure CDSt where
  nsd : NsD
  current : ClassD
  isPublic : Bool
  isPrivate : Bool
  isProtected : Bool
  inClass : Bool
  generateGetter : Bool
  generateSetter : Bool
  serializable : Bool
  committed : List (String × ClassD)
deriving DecidableEq, Repr

/-- `std::string::find` of a pattern inside a string, as an index option
(`none` models `npos`).  Finding the empty pattern yields index 0. -/
def findIdx (pat : List Char) : List Char → Option Nat
  | [] => if pat.isEmpty then some 0 else none
  | c :: t =>
    if pat.isPrefixOf (c :: t) then some 0
    else (findIdx pat t).map (fun n => n + 1)

/-- `text.find(pat) != std::string::npos`: the pattern occurs somewhere. -/
def containsSub (s pat : String) : Bool := (findIdx pat.data s.data).isSome

/-- `text.find(pat)` used directly as a boolean, as in
`if (text.find("get"))` (drivers.h lines 326 and 329): `npos` is nonzero
and therefore truthy, index 0 is falsy, any positive index is truthy.
So this is true exactly when the pattern does NOT occur at position 0. -/
def findTruthy (s pat : String) : Bool :=
  match findIdx pat.data s.data with
  | some 0 => false
  | _ => true

/-- `ClassDriver::handleAnnotation` (drivers.h lines 315-332): the
`cereal` test compares against `npos`; the `get` and `set` tests use the
raw `find` result as the condition. -/
def cdAnnotate (st : CDSt) (text : String) : CDSt :=
  let st1 :=
    if containsSub text ("cereal") then
      if !st.inClass then { st with current := { st.current with serializable := true } }
      else { st with serializable := true }
    else st
  let st2 := if findTruthy text ("get") && st1.inClass then { st1 with generateGetter := true } else st1
  if findTruthy text ("set") && st2.inClass then { st2 with generateSetter := true } else st2

/-- One `ClassDriver` event dispatch: the union of the subscriptions made
in `ClassDriver::regParser` (drivers.h lines 335-381) plus the embedded
`NamespaceDriver` subscriptions; enum events have no ClassDriver
subscriber. -/
def cdStep (st : CDSt) (e : Ev) : CDSt :=
  match e with
  | Ev.incScope => { st with nsd := nsStep st.nsd e }
  | Ev.decScope => { st with nsd := nsStep st.nsd e }
  | Ev.namespacePush _ _ => { st with nsd := nsStep st.nsd e }
  | Ev.classPush name _ =>
    { st with
      current := { st.current with
        namespaces := st.current.namespaces ++ nsNames st.nsd,
        name := name, isStruct := false },
      isPrivate := true, isPublic := false, isProtected := false, inClass := true }
  | Ev.structPush name _ =>
    { st with
      current := { st.current with
        namespaces := st.current.namespaces ++ nsNames st.nsd,
        name := name, isStruct := true },
      isPrivate := false, isPublic := true, isProtected := false, inClass := true }
  | Ev.classPop =>
    { st with committed := st.committed ++ [(fullClassName st.current, st.current)],
              current := emptyClassD, inClass := false }
  | Ev.privateClassParent n => { st with current := { st.current with parents := st.current.parents ++ [n] } }
  | Ev.protectedClassParent n => { st with current := { st.current with parents := st.current.parents ++ [n] } }
  | Ev.publicClassParent n => { st with current := { st.current with parents := st.current.parents ++ [n] } }
  | Ev.privateInClass => { st with isPrivate := true, isPublic := false, isProtected := false }
  | Ev.protectedInClass => { st with isPrivate := false, isPublic := false, isProtected := true }
  | Ev.publicInClass => { st with isPrivate := false, isPublic := true, isProtected := false }
  | Ev.memberFound isConst isStatic type name =>
    { st with
      current := { st.current with members := st.current.members ++
        [{ type := type, name := name, isPublic := st.isPublic, isProtected := st.isProtected,
           isConst := isConst, isStatic := isStatic, serializable := st.serializable,
           generateGetter := st.generateGetter, generateSetter := st.generateSetter }] },
      serializable := false, generateGetter := false, generateSetter := false }
  | Ev.methodFound isConst isStatic isVirtual type name =>
    { st with current := { st.current with methods := st.current.methods ++
        [{ returnType := type, name := name, isPublic := st.isPublic,
           isProtected := st.isProtected, isVirtual := isVirtual,
           isConst := isConst, isStatic := isStatic }] } }
  | Ev.annotationFound t => cdAnnotate st t
  | _ => st

/-- `ClassDriver` state right after `regParser` called `clear()`
(drivers.h lines 390-399). -/
def cdInit : CDSt :=
  { nsd := { scopeDepth := 0, stack := [] }, current := emptyClassD,
    isPublic := false, isPrivate := true, isProtected := false, inClass := false,
    generateGetter := false, generateSetter := false, serializable := false,
    committed := [] }

/-- Fold the `ClassDriver` over an event list. -/
def cdRun (st : CDSt) (evs : List Ev) : CDSt := evs.foldl cdStep st

/-- The classes committed (`classAvailable` emissions) by parsing an input
with a freshly registered `ClassDriver`. -/
def parseClasses (fuel : Nat) (input : String) : List (String × ClassD) :=
  (cdRun cdInit (phraseParse fuel input).2.2.events).committed

/-- Remove every whitespace character, as the `std::remove_if` +
`::isspace` erase in `LblEmitGetSetMethods::process` and
`LblEmitCerealMethods::process` (LblEmitFunctions.h lines 195-198 and
262-265). -/
def stripWs (s : String) : String := String.mk (s.data.filter (fun c => !isSpaceC c))

/-- The re-keyed class catalog of a `LblMiniParserFilter`: an association
list standing for the `std::map` `_classes`. -/
abbrev ClassMap := List (String × ClassD)

/-- `std::map` insert-or-assign `m[k] = v`. -/
def mapSet : ClassMap → String → ClassD → ClassMap
  | [], k, v => [(k, v)]
  | (k0, v0) :: t, k, v => if k0 == k then (k, v) :: t else (k0, v0) :: mapSet t k v

/-- `std::map` lookup. -/
def lookupCd : ClassMap → String → Option ClassD
  | [], _ => none
  | (k0, v0) :: t, k => if k0 == k then some v0 else lookupCd t k

/-- The `LblMiniParserFilter` constructor (LblEmitFunctions.h lines
54-60): re-index the incoming catalog by the bare class name. -/
def rekey (classes : ClassMap) : ClassMap :=
  classes.foldl (fun acc p => mapSet acc p.2.name p.2) []

/-- The per-filter state: the re-keyed catalog and the current-class
handle (`_currentClass`, a possibly-null shared pointer). -/
structure FilterSt where
  classes : ClassMap
  currentClass : Option ClassD
deriving DecidableEq, Repr

/-- A freshly constructed filter over a catalog. -/
def mkFilter (classes : ClassMap) : FilterSt := { classes := rekey classes, currentClass := none }

/-- `LblMiniParserFilter::handleClassPush` (LblEmitFunctions.h lines
130-138): a known name replaces the current class; an unknown name only
writes a warning to standard error and leaves `_currentClass` untouched.
(The signal is then forwarded downstream in both cases.)  Returns the new
state and the diagnostic lines written. -/
def handleClassPushF (st : FilterSt) (className : String) : FilterSt × List String :=
  match lookupCd st.classes className with
  | some cd => ({ st with currentClass := some cd }, [])
  | none =>
    (st, [("WARNING: Class ") ++ className ++ (" was not found in class data")])

/-- `LblMiniParserFilter::handleClassPop` (LblEmitFunctions.h lines
141-144): reset the current-class handle. -/
def handleClassPopF (st : FilterSt) : FilterSt := { st with currentClass := none }

/-- One generated getter line (LblEmitGetSetMethods::emitGetMethods,
LblEmitFunctions.h lines 161-173). -/
def getterLine (m : MemberD) : String :=
  m.type ++ (" get") ++ m.name ++ ("() const \x7b return ") ++ m.name ++ ("; \x7d")

/-- One generated setter line (LblEmitGetSetMethods::emitSetMethods,
LblEmitFunctions.h lines 175-189). -/
def setterLine (m : MemberD) : String :=
  ("void set") ++ m.name ++ ("(const ") ++ m.type ++ ("& val) \x7b ") ++ m.name ++ (" = val; \x7d")

/-- All getter lines of a class, in member order. -/
def emitGetMethods (cd : ClassD) : List String :=
  cd.members.filterMap (fun m => if m.generateGetter then some (getterLine m) else none)

/-- All setter lines of a class, in member order. -/
def emitSetMethods (cd : ClassD) : List String :=
  cd.members.filterMap (fun m => if m.generateSetter then some (setterLine m) else none)

/-- `LblEmitGetSetMethods::process` (LblEmitFunctions.h lines 191-209):
returns the lines emitted downstream and the diagnostic lines written to
standard error.  When the whitespace-stripped line equals the sentinel
and no class is current, the source only writes the warning: the line is
NOT forwarded. -/
def processGetSet (st : FilterSt) (line : String) : List String × List String :=
  if stripWs line == ("[[genGetSetMethods]]") then
    match st.currentClass with
    | some cd => (emitGetMethods cd ++ emitSetMethods cd, [])
    | none => ([], [("WARNING: [[genGetSetMethods]] encountered, but not in a class")])
  else ([line], [])

/-- The lines of `LblEmitCerealMethods::emitSaveMethod` (LblEmitFunctions.h
lines 225-241); a member is included when its own flag or the class flag
is set. -/
def saveLines (cd : ClassD) : List String :=
  [("template <typename Archive>"), ("void save(Archive& ar) const \x7b")] ++
  cd.members.filterMap (fun m =>
    if m.serializable || cd.serializable then
      some (("ar(cereal::make_nvp(\"") ++ m.name ++ ("\",") ++ m.name ++ ("));"))
    else none) ++ [("\x7d")]

/-- The lines of `LblEmitCerealMethods::emitLoadMethod` (LblEmitFunctions.h
lines 243-256). -/
def loadLines (cd : ClassD) : List String :=
  [("template <typename Archive>"), ("void load(Archive& ar) \x7b")] ++
  cd.members.filterMap (fun m =>
    if m.serializable || cd.serializable then some (("ar(") ++ m.name ++ (");")) else none) ++
  [("\x7d")]

/-- `LblEmitCerealMethods::process` (LblEmitFunctions.h lines 258-276). -/
def processCereal (st : FilterSt) (line : String) : List String × List String :=
  if stripWs line == ("[[genCerealLoadSave]]") then
    match st.currentClass with
    | some cd => (saveLines cd ++ loadLines cd, [])
    | none => ([], [("WARNING: [[genCerealLoadSave]] encountered, but not in a class")])
  else ([line], [])

/-- The named parser signals a driver can be connected to. -/
inductive Sig where
  | incScope | decScope | namespacePush | enumPush | enumClassPush | enumIdentifier
  | classPush | classPop | structPush
  | privateClassParent | protectedClassParent | publicClassParent
  | privateInClass | protectedInClass | publicInClass
  | memberFound | methodFound | annotationFound
deriving DecidableEq, Repr

/-- The connections `ClassDriver::regParser` creates on the parser's own
signals, in source order (drivers.h lines 340-369). -/
def classDriverConnects : List Sig :=
  [Sig.classPush, Sig.classPop, Sig.structPush,
   Sig.privateClassParent, Sig.protectedClassParent, Sig.publicClassParent,
   Sig.privateInClass, Sig.protectedInClass, Sig.publicInClass,
   Sig.memberFound, Sig.methodFound, Sig.annotationFound]

/-- The connections `ClassDriver::regParser` pushes into its
`subscriptions` vector (drivers.h lines 370-380).  The source pushes
`classPushSub, structPushSub, ...` — `classPopSub` is created at line 343
but never pushed. -/
def classDriverSubscriptions : List Sig :=
  [Sig.classPush, Sig.structPush,
   Sig.privateClassParent, Sig.protectedClassParent, Sig.publicClassParent,
   Sig.privateInClass, Sig.protectedInClass, Sig.publicInClass,
   Sig.memberFound, Sig.methodFound, Sig.annotationFound]

/-- The connections that remain live after `ClassDriver::unsubscribe` (or
`clear`, which calls it): `unsubscribe` disconnects exactly the tracked
`subscriptions` (drivers.h lines 383-388). -/
def afterUnsubscribeConnections : List Sig :=
  classDriverConnects.filter (fun s => !(classDriverSubscriptions.contains s))

/-- A signal invokes a driver callback exactly when a live connection to
it exists. -/
def signalInvokesDriver (live : List Sig) (s : Sig) : Bool := live.contains s

/-- Modelled from the spec: `join(namespaces, "::")`, the separator-joined
namespace list used by the fully-qualified-name invariant (spec sections
3 and 8). -/
def specJoin : List String → String
  | [] => ("")
  | [n] => n
  | n :: rest => n ++ ("::") ++ specJoin rest

/-- Modelled from the spec: `fullyQualified = join(namespaces, "::")
[ + "::" + name ]`, yielding just the name for an empty namespace list. -/
def specFullyQualified (namespaces : List String) (name : String) : String :=
  match namespaces with
  | [] => name
  | _ => specJoin namespaces ++ ("::") ++ name

/-- Is this event an `annotationFound`? -/
def isAnnotEv : Ev → Bool
  | Ev.annotationFound _ => true
  | _ => false

/-- A catalog fixture: a `Point` class with one int member `x` requesting
both accessors. -/
def pointFixture : ClassD :=
  { emptyClassD with
    name := ("Point")
    members := [{ type := ("int"), name := ("x"), isPublic := true, isProtected := false,
                  isConst := false, isStatic := false, serializable := false,
                  generateGetter := true, generateSetter := true }] }

theorem str_empty_append (s : String) : ("") ++ s = s := by
  cases s with
  | mk data => show String.mk ([] ++ data) = String.mk data; rw [List.nil_append]

theorem foldAppend_join (l : List String) :
    ∀ (acc nm : String),
      (l.foldl (fun a n => a ++ n ++ ("::")) acc) ++ nm = acc ++ specFullyQualified l nm := by
  induction l with
  | nil => intro acc nm; simp [specFullyQualified]
  | cons n t ih =>
    intro acc nm
    simp only [List.foldl_cons]
    rw [ih]
    cases t with
    | nil => simp [specFullyQualified, specJoin, String.append_assoc]
    | cons m r => simp [specFullyQualified, specJoin, String.append_assoc]

/-- Claim C10: for every committed catalog entry (class or enum), the
fully qualified key equals the enclosing namespaces joined with the
separator followed by the entity name, and just the name for an empty
namespace list: `ClassData::fullClassName` and the `EnumDriver` commit
key both refine the spec formula. -/
theorem claim10_fully_qualified_key (c : ClassD) (ns : List String) (nm : String) :
    fullClassName c = specFullyQualified c.namespaces c.name ∧
    enumAvailableKey ns nm = specFullyQualified ns nm := by
  constructor
  · have h := foldAppend_join c.namespaces ("") c.name
    rw [fullClassName, h, str_empty_append]
  · have h := foldAppend_join ns ("") nm
    rw [enumAvailableKey, h, str_empty_append]

/-- Claim C1: the claim states that the generate-getter flag is set iff
the annotation's inner text contains the substring get (and likewise for
set), with inner text exactly get setting the flag and text without get
such as cereal leaving it unset.  The code evaluates `text.find("get")`
without comparing to `npos` (drivers.h lines 326-331): the annotation
"get" (find = 0, falsy) does NOT set generate-getter, while "cereal"
(find = npos, truthy) DOES set both generate-getter and generate-setter
— the exact opposite of the claim on these inputs, and contrary to the
function's own doc comment. -/
theorem claim1_find_used_without_npos_check :
    (cdAnnotate { cdInit with inClass := true } ("get")).generateGetter = false ∧
    (cdAnnotate { cdInit with inClass := true } ("cereal")).generateGetter = true ∧
    (cdAnnotate { cdInit with inClass := true } ("set")).generateSetter = false ∧
    (cdAnnotate { cdInit with inClass := true } ("cereal")).generateSetter = true ∧
    (cdAnnotate { cdInit with inClass := true } ("cereal,get,set")).generateGetter = true := by
  decide

/-- Claim C8: the claim states that after `regParser`, teardown
disconnects every subscription so no parser signal — including
`classPop` — can invoke a driver callback.  In the source,
`classPopSub` is created (drivers.h line 343) but never pushed into
`subscriptions` (lines 370-380), so after `unsubscribe` the `classPop`
connection is the one connection still live and the signal still invokes
`handleClassPop`. -/
theorem claim8_classpop_survives_unsubscribe :
    signalInvokesDriver afterUnsubscribeConnections Sig.classPop = true ∧
    afterUnsubscribeConnections = [Sig.classPop] := by
  decide

/-- Claim C5 counterexample: a sentinel line processed with no current
class is NOT forwarded: `LblEmitGetSetMethods::process` emits nothing and
only writes the one warning line, refuting the claim that the line is
forwarded verbatim. -/
theorem claim5_counterexample :
    processGetSet { classes := [], currentClass := none } ("[[genGetSetMethods]]") =
      ([], [("WARNING: [[genGetSetMethods]] encountered, but not in a class")]) := by
  decide

/-- Claim C5 (amended): for every line whose whitespace-stripped content
equals a sentinel, processed while no current class is known, the filter
emits nothing (the sentinel is dropped, not forwarded) and writes exactly
one diagnostic line to standard error. -/
theorem claim5_sentinel_dropped_with_diagnostic
    (line1 line2 : String) (st1 st2 : FilterSt)
    (h1 : stripWs line1 = ("[[genGetSetMethods]]")) (h2 : st1.currentClass = none)
    (h3 : stripWs line2 = ("[[genCerealLoadSave]]")) (h4 : st2.currentClass = none) :
    processGetSet st1 line1 =
      ([], [("WARNING: [[genGetSetMethods]] encountered, but not in a class")]) ∧
    processCereal st2 line2 =
      ([], [("WARNING: [[genCerealLoadSave]] encountered, but not in a class")]) := by
  constructor
  · simp [processGetSet, h1, h2]
  · simp [processCereal, h3, h4]

/-- Claim C5 witness: the amended theorem applied to concrete sentinel
lines carrying surrounding whitespace and an empty filter state. -/
theorem claim5_witness :
    stripWs ("  [[genGetSetMethods]]  ") = ("[[genGetSetMethods]]") ∧
    stripWs ("\t[[genCerealLoadSave]]") = ("[[genCerealLoadSave]]") ∧
    (processGetSet { classes := [], currentClass := none } ("  [[genGetSetMethods]]  ") =
      ([], [("WARNING: [[genGetSetMethods]] encountered, but not in a class")]) ∧
     processCereal { classes := [], currentClass := none } ("\t[[genCerealLoadSave]]") =
      ([], [("WARNING: [[genCerealLoadSave]] encountered, but not in a class")])) :=
  ⟨by decide, by decide,
   claim5_sentinel_dropped_with_diagnostic
     ("  [[genGetSetMethods]]  ") ("\t[[genCerealLoadSave]]")
     { classes := [], currentClass := none } { classes := [], currentClass := none }
     (by decide) rfl (by decide) rfl⟩

/-- Claim C6 counterexample: with a catalog containing `Point`, pushing
the known name and then an unknown name leaves the current-class handle
holding `Point` (the claim says it becomes empty), and a sentinel
processed afterwards expands accessors for `Point` instead of being
treated as the missing-context case. -/
theorem claim6_counterexample :
    ((handleClassPushF (handleClassPushF (mkFilter [(("ns::Point"), pointFixture)])
        ("Point")).1 ("Nope")).1.currentClass = some pointFixture) ∧
    ((processGetSet (handleClassPushF (handleClassPushF (mkFilter [(("ns::Point"), pointFixture)])
        ("Point")).1 ("Nope")).1 ("[[genGetSetMethods]]")).1 =
      [("int getx() const \x7b return x; \x7d"), ("void setx(const int& val) \x7b x = val; \x7d")]) := by
  decide

/-- Claim C6 (amended): a class-push whose name is not in the re-keyed
catalog leaves the filter state unchanged (in particular the
current-class handle keeps its previous value) and writes one warning;
the handle becomes empty only through a class-pop.  Sentinels after an
unknown push are therefore handled as missing-context only when no class
was current before it. -/
theorem claim6_unknown_class_keeps_handle
    (st : FilterSt) (nm : String) (h : lookupCd st.classes nm = none) :
    handleClassPushF st nm =
      (st, [(("WARNING: Class ") ++ nm ++ (" was not found in class data"))]) ∧
    (handleClassPopF st).currentClass = none := by
  constructor
  · simp [handleClassPushF, h]
  · simp [handleClassPopF]

/-- Claim C6 witness: the amended theorem applied to a filter currently
holding `Point` and an unknown name. -/
theorem claim6_witness :
    lookupCd [(("Point"), pointFixture)] ("Nope") = none ∧
    handleClassPushF { classes := [(("Point"), pointFixture)], currentClass := some pointFixture }
        ("Nope") =
      ({ classes := [(("Point"), pointFixture)], currentClass := some pointFixture },
       [("WARNING: Class Nope was not found in class data")]) :=
  ⟨by decide,
   (claim6_unknown_class_keeps_handle
      { classes := [(("Point"), pointFixture)], currentClass := some pointFixture }
      ("Nope") (by decide)).1⟩

theorem skip_lbrace (f : Nat) (t : List Char) : skip f ('{' :: t) = '{' :: t := by
  cases f <;> rfl

theorem skip_rbrace (f : Nat) (t : List Char) : skip f ('}' :: t) = '}' :: t := by
  cases f <;> rfl

theorem skip_tee (f : Nat) (t : List Char) : skip f ('t' :: t) = 't' :: t := by
  cases f <;> rfl

theorem annotStar_rbrace (f : Nat) (st : PSt) (t : List Char) :
    pstarGo (pAnnotRule actAnnot) f st ('}' :: t) = (some ('}' :: t), st) := by
  cases f with
  | zero => rfl
  | succ f => simp [pstarGo, pAnnotRule, plit, skip_rbrace, List.isPrefixOf]

/-- Claim C2: the claim states that a class declared with the class
keyword after a struct declaration in the same input is committed with
the struct flag false.  In the source, `resetInClassFlags` contains the
no-effect statement `inClassStruct;` (parser.h line 211), so the flag set
by the first struct is never cleared: `handleClassPush` then routes
`class B` to the `structPush` signal and the ClassDriver commits B with
`isStruct = true`. -/
theorem claim2_class_after_struct_committed_as_struct :
    (parseClasses 200 ("struct A \x7b \x7d; class B \x7b \x7d;")).map
        (fun p => (p.1, p.2.isStruct)) =
      [(("A"), true), (("B"), true)] := by
  decide

/-- Claim C3 counterexample: in
`class A [...] public: [[cereal]] void f(); int y; [...]` no annotation
occurs between the method-found emission for `f` and the member `y`, yet
`y` is committed with serializable, generate-getter and generate-setter
all true: `ClassDriver::handleMethodFound` does not reset the pending
annotation flags, refuting the claim that they are reset after every
method-found event. -/
theorem claim3_counterexample :
    (parseClasses 300 ("class A \x7b public: [[cereal]] void f(); int y; \x7d;")).map
        (fun p => (p.1, p.2.members.map
          (fun m => (m.name, m.serializable, m.generateGetter, m.generateSetter)))) =
      [(("A"), [(("y"), true, true, true)])] := by
  decide

theorem cdStep_flags_pres (st : CDSt) (e : Ev) (h : isAnnotEv e = false)
    (h1 : st.serializable = false) (h2 : st.generateGetter = false)
    (h3 : st.generateSetter = false) :
    (cdStep st e).serializable = false ∧ (cdStep st e).generateGetter = false ∧
    (cdStep st e).generateSetter = false := by
  cases e <;> simp_all [cdStep, isAnnotEv]

theorem cdRun_flags_clear (evs : List Ev) :
    ∀ (st : CDSt), evs.all (fun e => !isAnnotEv e) = true →
    st.serializable = false → st.generateGetter = false → st.generateSetter = false →
    (cdRun st evs).serializable = false ∧ (cdRun st evs).generateGetter = false ∧
    (cdRun st evs).generateSetter = false := by
  induction evs with
  | nil => intro st _ h1 h2 h3; exact ⟨h1, h2, h3⟩
  | cons e t ih =>
    intro st hall h1 h2 h3
    simp only [List.all_cons, Bool.and_eq_true, Bool.not_eq_true'] at hall
    obtain ⟨q1, q2, q3⟩ := cdStep_flags_pres st e hall.1 h1 h2 h3
    exact ih (cdStep st e) hall.2 q1 q2 q3

/-- Claim C3 (amended): the ClassDriver resets the three
annotation-driven flags after attaching them to a member (member-found),
but NOT after method-found events; consequently, after any member-found,
the pending flags stay false across every annotation-free event sequence
— including method-found and class-pop events — so a later member commits
with false flags exactly when no annotation event intervened since the
preceding member-found. -/
theorem claim3_flags_reset_only_by_member_found
    (st : CDSt) (c s : Bool) (ty nm : String) (evs : List Ev)
    (hall : evs.all (fun e => !isAnnotEv e) = true) :
    (cdRun (cdStep st (Ev.memberFound c s ty nm)) evs).serializable = false ∧
    (cdRun (cdStep st (Ev.memberFound c s ty nm)) evs).generateGetter = false ∧
    (cdRun (cdStep st (Ev.memberFound c s ty nm)) evs).generateSetter = false := by
  apply cdRun_flags_clear evs _ hall <;> simp [cdStep]

/-- Claim C3 witness: the amended theorem applied after a member-found,
across a method-found and a class-pop with no annotation in between. -/
theorem claim3_witness :
    ([Ev.methodFound false false false ("void") ("f"), Ev.classPop].all
        (fun e => !isAnnotEv e) = true) ∧
    ((cdRun (cdStep cdInit (Ev.memberFound false false ("int") ("x")))
        [Ev.methodFound false false false ("void") ("f"), Ev.classPop]).serializable = false ∧
     (cdRun (cdStep cdInit (Ev.memberFound false false ("int") ("x")))
        [Ev.methodFound false false false ("void") ("f"), Ev.classPop]).generateGetter = false ∧
     (cdRun (cdStep cdInit (Ev.memberFound false false ("int") ("x")))
        [Ev.methodFound false false false ("void") ("f"), Ev.classPop]).generateSetter = false) :=
  ⟨by decide,
   claim3_flags_reset_only_by_member_found cdInit false false ("int") ("x")
     [Ev.methodFound false false false ("void") ("f"), Ev.classPop] (by decide)⟩

/-- Claim C4: the claim states that an unrecognized top-level token makes
parse return false together with the unconsumed suffix.  The top-level
grammar is a Kleene star, which never fails, so `phrase_parse` — and
hence `ParserDriver::parse` — returns true on every input; on the
unrecognized token `%` the parse succeeds having consumed nothing,
leaving the suffix unconsumed and the event log empty. -/
theorem claim4_parse_cannot_return_false :
    (∀ (f : Nat) (input : String), (phraseParse f input).1 = true) ∧
    phraseParse 50 ("%") = (true, ['%'], initPSt) := by
  constructor
  · intro f input
    unfold phraseParse
    cases progStar f initPSt input.data
    rfl
  · decide

/-- Claim C7 counterexample: parsing a lone opening brace produces NO
incScope event and leaves the depth at zero (the claim says scope-push is
emitted and the depth incremented), and a lone closing brace likewise
produces no event. -/
theorem claim7_counterexample :
    (phraseParse 50 ("\x7b")).2.2.events = [] ∧
    (phraseParse 50 ("\x7b")).2.2.scopeDepth = 0 ∧
    (phraseParse 50 ("\x7d")).2.2.events = [] := by
  decide

/-- Claim C7 (amended): the bare `scopePush` and `scopePop` alternatives
of `programGrammar` carry no semantic action, so a standalone top-level
opening or closing brace is consumed silently: the parser state — event
log and scope depth included — is unchanged.  Scope events arise only
from the braces inside the namespace and enum grammars. -/
theorem claim7_toplevel_braces_are_silent (f : Nat) (st : PSt) (rest : List Char) :
    progStep f st ('{' :: rest) = (some rest, st) ∧
    progStep f st ('}' :: rest) = (some rest, st) := by
  constructor
  · simp [progStep, palt, pseq, includeP, pragmaOnceP, usingP, plit, skip_lbrace,
          List.isPrefixOf]
  · simp [progStep, palt, pseq, includeP, pragmaOnceP, usingP, namespaceGrammarP,
          enumGrammarP, enumClassGrammarP, templateClassP, templateClassC, plitC,
          classGrammarP, pstar, annotStar_rbrace, plit, skip_rbrace, plitAct,
          List.isPrefixOf]

/-- Claim C9 counterexample: a template class whose body contains the
closing-brace-semicolon sequence inside a string literal is cut short at
that sequence; the rest of the body is re-parsed at top level and emits
classPush, memberFound and classPop events for the phantom class `C`
that lives inside the string — refuting the claim that no class or member
events are emitted for template definitions with strings in their
bodies. -/
theorem claim9_counterexample :
    (phraseParse 400
        ("template <typename T> class Box \x7b std::string s = \"\x7d; class C \x7b int x; \x7d;\"; \x7d;")).2.2.events =
      [Ev.classPush ("C") 0, Ev.memberFound false false ("int") ("x"), Ev.classPop] := by
  decide

/-- Claim C9 (amended): whenever the template-class rule matches — which
requires the first closing-brace-semicolon occurrence after the opening
brace to terminate the body — the top-level parser consumes the whole
definition with NO state change: no class, struct, member or method
event, no catalog entry, and an untouched namespace stack.  A body whose
first such sequence occurs early (inside a string literal or a nested
class) is cut short there instead, and the remaining text is re-parsed at
top level. -/
theorem claim9_template_rule_emits_nothing
    (f : Nat) (st : PSt) (tail rest : List Char)
    (h : templateClassC f
          ('t' :: 'e' :: 'm' :: 'p' :: 'l' :: 'a' :: 't' :: 'e' :: tail) = some rest) :
    progStep f st ('t' :: 'e' :: 'm' :: 'p' :: 'l' :: 'a' :: 't' :: 'e' :: tail) =
      (some rest, st) := by
  simp [progStep, palt, pseq, includeP, pragmaOnceP, usingP, namespaceGrammarP,
        enumGrammarP, enumClassGrammarP, templateClassP, plit, skip_tee,
        List.isPrefixOf, h]

/-- Claim C9 witness: the amended theorem applied to a well-formed
template class, consumed entirely with the parser state untouched. -/
theorem claim9_witness :
    templateClassC 100
        ('t' :: 'e' :: 'm' :: 'p' :: 'l' :: 'a' :: 't' :: 'e' ::
          (" <typename T> class Box \x7b T v; \x7d;").data) = some [] ∧
    progStep 100 initPSt
        ('t' :: 'e' :: 'm' :: 'p' :: 'l' :: 'a' :: 't' :: 'e' ::
          (" <typename T> class Box \x7b T v; \x7d;").data) = (some [], initPSt) :=
  ⟨by decide,
   claim9_template_rule_emits_nothing 100 initPSt
     ((" <typename T> class Box \x7b T v; \x7d;").data) [] (by decide)⟩
